import Mathlib

set_option linter.unusedVariables false

/-
  Verification development for the bonpreu-go repository.

  The definitions below are shallow embeddings of the Go source:
  - pkg/models/product.go     (Product, ParseProductFromResponse,
                               ParseNutritionalDataFromResponse, parseNutritionalDataTable)
  - pkg/services/product_service.go (NewProductService, FetchAllProductsData,
                               fetchSingleProductData and its result collection loop)
  - the database service file  (SaveProducts, SaveNutritionalData)

  Machine integers (Go int, int64) are modeled as Int or Nat where the code
  never overflows; float64 price fields are modeled as exact rationals;
  time.Time values are modeled as an abstract Int clock parameter.
  Go standard-library string helpers (strings.ReplaceAll, strings.Split,
  strings.Contains, strings.TrimSpace, strconv.ParseFloat on plain decimals)
  are given fuel-based executable models so that concrete inputs evaluate
  by kernel reduction.
-/

namespace Bonpreu

/-- Boolean test that pat is a prefix of the second character list. -/
def isPrefixList : List Char → List Char → Bool
  | [], _ => true
  | _ :: _, [] => false
  | p :: ps, c :: cs => p == c && isPrefixList ps cs

/-- Fuel-based model of strings.ReplaceAll over character lists: replaces
every non-overlapping occurrence of pat, scanning left to right. The fuel
is the length of the scanned list, which bounds the number of steps. -/
def replaceAllAux (pat rep : List Char) : Nat → List Char → List Char
  | _, [] => []
  | 0, s => s
  | fuel + 1, c :: cs =>
    if !pat.isEmpty && isPrefixList pat (c :: cs) then
      rep ++ replaceAllAux pat rep fuel (List.drop (pat.length - 1) cs)
    else
      c :: replaceAllAux pat rep fuel cs

/-- Model of Go strings.ReplaceAll for a non-empty pattern. -/
def replaceAll (s pat rep : String) : String :=
  ⟨replaceAllAux pat.data rep.data s.data.length s.data⟩

/-- Fuel-based splitter underlying the model of Go strings.Split. The
accumulator holds the characters of the current field. -/
def splitAllAux (sep : List Char) : Nat → List Char → List Char → List (List Char)
  | _, [], acc => [acc]
  | 0, s, acc => [acc ++ s]
  | fuel + 1, c :: cs, acc =>
    if !sep.isEmpty && isPrefixList sep (c :: cs) then
      acc :: splitAllAux sep fuel (List.drop (sep.length - 1) cs) []
    else
      splitAllAux sep fuel cs (acc ++ [c])

/-- Model of Go strings.Split for a non-empty separator (the code only
splits on the non-empty separators given in the source). -/
def splitAll (s sep : String) : List String :=
  if sep.isEmpty then [s]
  else (splitAllAux sep.data s.data.length s.data []).map String.mk

/-- Membership of pat as a contiguous substring of the character list. -/
def containsList (pat : List Char) : List Char → Bool
  | [] => pat.isEmpty
  | c :: cs => isPrefixList pat (c :: cs) || containsList pat cs

/-- Model of Go strings.Contains. -/
def containsSub (s pat : String) : Bool :=
  containsList pat.data s.data

/-- ASCII whitespace, the fragment of the Unicode white-space class that the
inputs of this code base exercise. -/
def isSpaceChar (c : Char) : Bool :=
  c == ' ' || c == '\t' || c == '\n' || c == '\r' || c == '\x0b' || c == '\x0c'

/-- Model of Go strings.TrimSpace on ASCII text. -/
def trimSpace (s : String) : String :=
  ⟨((s.data.dropWhile isSpaceChar).reverse.dropWhile isSpaceChar).reverse⟩

/-- Decimal value of a digit list, most significant digit first. -/
def digitsToNat (cs : List Char) : Nat :=
  cs.foldl (fun acc c => acc * 10 + (c.toNat - 48)) 0

/-- Unsigned part of the model of strconv.ParseFloat: plain decimal
notation, with an optional fractional part; the exact rational value is
returned (binary float rounding is not modeled, and exotic forms such as
exponents or hex floats are rejected; the code base only feeds plain
decimals to the parser). -/
def parseUnsignedQ (cs : List Char) : Option ℚ :=
  match splitAllAux ['.'] cs.length cs [] with
  | [ip] =>
    if !ip.isEmpty && ip.all Char.isDigit then some ((digitsToNat ip : ℚ)) else none
  | [ip, fp] =>
    if (!ip.isEmpty || !fp.isEmpty) && ip.all Char.isDigit && fp.all Char.isDigit then
      some ((digitsToNat (ip ++ fp) : ℚ) / (10 : ℚ) ^ fp.length)
    else none
  | _ => none

/-- Model of strconv.ParseFloat on plain decimal strings, with sign. -/
def parseFloatQ (s : String) : Option ℚ :=
  match s.data with
  | '-' :: rest => (parseUnsignedQ rest).map (fun q => -q)
  | '+' :: rest => parseUnsignedQ rest
  | cs => parseUnsignedQ cs

/-- Dynamic JSON value, the model of the Go interface values produced by
json.Unmarshal into map[string]interface{} (numbers become float64 in Go,
modeled here as exact rationals). -/
inductive JValue where
  | null
  | jbool (b : Bool)
  | num (q : ℚ)
  | str (s : String)
  | arr (elems : List JValue)
  | obj (fields : List (String × JValue))

/-- Lookup of a key in a decoded JSON object. Go map lookup is modeled by
first match; the inputs considered have distinct keys, as JSON objects
produced by the remote API do. -/
def lookupJ (fields : List (String × JValue)) (key : String) : Option JValue :=
  match fields with
  | [] => none
  | (k, v) :: rest => if k = key then some v else lookupJ rest key

/-- Embedding of the Product struct of pkg/models/product.go. The float64
price fields are exact rationals, time.Time is an abstract Int instant. -/
structure Product where
  productID : Int
  productType : String
  productName : String
  productDescription : String
  productBrand : String
  productPackSizeDescription : String
  productPriceAmount : ℚ
  productCurrency : String
  productUnitPriceAmount : ℚ
  productUnitPriceCurrency : String
  productUnitPriceUnit : String
  productAvailable : Bool
  productAlcohol : Bool
  productCookingGuidelines : String
  productCategories : List String
  createdAt : Int
deriving DecidableEq, Repr

/-- Embedding of the ProductNutritionalData struct of pkg/models/product.go. -/
structure ProductNutritionalData where
  id : Option Int
  productID : Int
  productNutritionalValue : String
  productNutritionalQuantity : String
  createdAt : Int
deriving DecidableEq, Repr

/-- The Product value built by the first literal of ParseProductFromResponse:
the given id and clock instant, an empty category list, and Go zero values
everywhere else. Also the zero Product struct when id and now are 0. -/
def zeroProduct (productID now : Int) : Product :=
  { productID := productID
    productType := ""
    productName := ""
    productDescription := ""
    productBrand := ""
    productPackSizeDescription := ""
    productPriceAmount := 0
    productCurrency := ""
    productUnitPriceAmount := 0
    productUnitPriceCurrency := ""
    productUnitPriceUnit := ""
    productAvailable := false
    productAlcohol := false
    productCookingGuidelines := ""
    productCategories := []
    createdAt := now }

/-- Scan of the bopData fields array shared by the cooking-guidelines and
nutritional-data extractions in pkg/models/product.go: walk the array, and
at the first object entry whose title is the wanted string, stop (the Go
loops break there) and report its content when that content is a string. -/
def findFieldContent (wanted : String) : List JValue → Option (Option String)
  | [] => none
  | .obj fieldMap :: rest =>
    match lookupJ fieldMap "title" with
    | some (.str t) =>
      if t = wanted then
        some (match lookupJ fieldMap "content" with
              | some (.str c) => some c
              | _ => none)
      else findFieldContent wanted rest
    | _ => findFieldContent wanted rest
  | _ :: rest => findFieldContent wanted rest

/-- Embedding of ParseProductFromResponse of pkg/models/product.go, field
by field in source order: every field is optional, a missing or wrong-typed
field leaves the corresponding zero value, price amounts accept a native
number or a numeric string, and the bopData block (nested inside the
product block exactly as in the source) can override the description and
set the cooking guidelines. -/
def parseProductFromResponse (responseJSON : List (String × JValue))
    (productID : Int) (now : Int) : Product :=
  let product0 := zeroProduct productID now
  match lookupJ responseJSON "product" with
  | some (.obj productData) =>
    let p := product0
    let p := match lookupJ productData "type" with
      | some (.str v) => { p with productType := v }
      | _ => p
    let p := match lookupJ productData "name" with
      | some (.str v) => { p with productName := replaceAll v "<br />" "" }
      | _ => p
    let p := match lookupJ productData "description" with
      | some (.str v) => { p with productDescription := replaceAll v "<br />" "" }
      | _ => p
    let p := match lookupJ productData "brand" with
      | some (.str v) => { p with productBrand := v }
      | _ => p
    let p := match lookupJ productData "packSizeDescription" with
      | some (.str v) => { p with productPackSizeDescription := v }
      | _ => p
    let p := match lookupJ productData "available" with
      | some (.jbool v) => { p with productAvailable := v }
      | _ => p
    let p := match lookupJ productData "alcohol" with
      | some (.jbool v) => { p with productAlcohol := v }
      | _ => p
    let p := match lookupJ productData "price" with
      | some (.obj priceData) =>
        let p := match lookupJ priceData "amount" with
          | some (.num v) => { p with productPriceAmount := v }
          | some (.str v) =>
            match parseFloatQ v with
            | some q => { p with productPriceAmount := q }
            | none => p
          | _ => p
        match lookupJ priceData "currency" with
        | some (.str v) => { p with productCurrency := v }
        | _ => p
      | _ => p
    let p := match lookupJ productData "unitPrice" with
      | some (.obj unitPriceData) =>
        let p := match lookupJ unitPriceData "price" with
          | some (.obj unitPricePrice) =>
            let p := match lookupJ unitPricePrice "amount" with
              | some (.num v) => { p with productUnitPriceAmount := v }
              | some (.str v) =>
                match parseFloatQ v with
                | some q => { p with productUnitPriceAmount := q }
                | none => p
              | _ => p
            match lookupJ unitPricePrice "currency" with
            | some (.str v) => { p with productUnitPriceCurrency := v }
            | _ => p
          | _ => p
        match lookupJ unitPriceData "unit" with
        | some (.str v) => { p with productUnitPriceUnit := v }
        | _ => p
      | _ => p
    let p := match lookupJ productData "categoryPath" with
      | some (.arr cats) =>
        { p with productCategories := p.productCategories ++
            cats.filterMap (fun c => match c with | .str s => some s | _ => none) }
      | _ => p
    let p := match lookupJ responseJSON "bopData" with
      | some (.obj bopData) =>
        let p := match lookupJ bopData "detailedDescription" with
          | some (.str v) => { p with productDescription := replaceAll v "<br />" "" }
          | _ => p
        match lookupJ bopData "fields" with
        | some (.arr fs) =>
          match findFieldContent "cookingGuidelines" fs with
          | some (some content) =>
            { p with productCookingGuidelines := replaceAll content "<br />" "" }
          | _ => p
        | _ => p
      | _ => p
    p
  | _ => product0

/-- Embedding of the per-row step of parseNutritionalDataTable: skip rows
holding a header cell or only whitespace, require at least two data cells
beyond the leading split residue, clean both cells, and emit an entry only
when both cleaned strings are non-empty. -/
def nutritionalRowEntry (productID now : Int) (row : String) : Option ProductNutritionalData :=
  if containsSub row "<th>" || (trimSpace row).isEmpty then none
  else
    match splitAll row "<td>" with
    | _ :: c1 :: c2 :: _ =>
      let value := replaceAll (trimSpace (replaceAll c1 "</td>" "")) "<br />" ""
      let quantity := replaceAll (trimSpace (replaceAll c2 "</td>" "")) "<br />" ""
      if value ≠ "" ∧ quantity ≠ "" then
        some { id := none
               productID := productID
               productNutritionalValue := value
               productNutritionalQuantity := quantity
               createdAt := now }
      else none
    | _ => none

/-- Embedding of parseNutritionalDataTable of pkg/models/product.go: split
the html on row tags and collect the entries the per-row step emits. -/
def parseNutritionalDataTable (html : String) (productID now : Int) :
    List ProductNutritionalData :=
  (splitAll html "<tr>").filterMap (nutritionalRowEntry productID now)

/-- Embedding of ParseNutritionalDataFromResponse of pkg/models/product.go:
find the bopData field titled nutritionalData and parse its table content;
any missing piece yields the empty list. -/
def parseNutritionalDataFromResponse (responseJSON : List (String × JValue))
    (productID now : Int) : List ProductNutritionalData :=
  match lookupJ responseJSON "bopData" with
  | some (.obj bopData) =>
    match lookupJ bopData "fields" with
    | some (.arr fs) =>
      match findFieldContent "nutritionalData" fs with
      | some (some content) => parseNutritionalDataTable content productID now
      | _ => []
    | _ => []
  | _ => []

/-- Configuration of the ProductService built by NewProductService of
pkg/services/product_service.go: a 10 second client timeout, a semaphore
channel whose capacity equals the worker bound, and the worker bound. -/
structure ProductService where
  timeoutSeconds : Nat
  semaphoreCapacity : Int
  maxWorkers : Int
deriving DecidableEq, Repr

/-- Embedding of NewProductService: values of maxWorkers at most 0 fall
back to the default of 200 workers. -/
def newProductService (maxWorkers : Int) : ProductService :=
  let mw := if maxWorkers ≤ 0 then 200 else maxWorkers
  { timeoutSeconds := 10, semaphoreCapacity := mw, maxWorkers := mw }

/-- Outcome of the network interaction of one fetch, the environment input
of fetchSingleProductData. The constructors follow the failure points of
the source in order: request construction failure, transport failure of
client.Do, and an HTTP response with its status code, an optional gzip
reader failure, an optional body read failure, and the decoded JSON object
or the decoding failure message. -/
inductive NetResult where
  | newRequestError (msg : String)
  | doRequestError (msg : String)
  | httpResp (statusCode : Nat) (gzipFail : Option String) (readFail : Option String)
      (body : Except String (List (String × JValue)))

/-- Embedding of the ProductResult struct of pkg/services/product_service.go;
the Go error field is the message string of the wrapped error, or none. -/
structure ProductResult where
  product : Product
  nutritionalData : List ProductNutritionalData
  errMsg : Option String
  productID : Int

/-- The not-found error message format of fetchSingleProductData, which the
collection loop of FetchAllProductsData compares against verbatim. -/
def notFoundMsg (productID : Int) : String :=
  "product " ++ toString productID ++ " not found"

/-- Embedding of fetchSingleProductData of pkg/services/product_service.go:
classify the network outcome in source order (transport failure, 404,
other non-200 status, gzip failure, read failure, JSON decode failure,
success with permissive field extraction). Every path produces exactly one
result. -/
def fetchSingleProductData (productID : Int) (now : Int) (net : NetResult) : ProductResult :=
  match net with
  | .newRequestError m =>
    { product := zeroProduct 0 0, nutritionalData := [],
      errMsg := some ("failed to create request for product " ++ toString productID ++ ": " ++ m),
      productID := productID }
  | .doRequestError m =>
    { product := zeroProduct 0 0, nutritionalData := [],
      errMsg := some ("failed to fetch product " ++ toString productID ++ ": " ++ m),
      productID := productID }
  | .httpResp statusCode gzipFail readFail body =>
    if statusCode = 404 then
      { product := zeroProduct 0 0, nutritionalData := [],
        errMsg := some (notFoundMsg productID), productID := productID }
    else if statusCode ≠ 200 then
      { product := zeroProduct 0 0, nutritionalData := [],
        errMsg := some ("failed to fetch product " ++ toString productID ++
          ", status code: " ++ toString statusCode),
        productID := productID }
    else
      match gzipFail with
      | some m =>
        { product := zeroProduct 0 0, nutritionalData := [],
          errMsg := some ("failed to create gzip reader for product " ++
            toString productID ++ ": " ++ m),
          productID := productID }
      | none =>
        match readFail with
        | some m =>
          { product := zeroProduct 0 0, nutritionalData := [],
            errMsg := some ("failed to read response body for product " ++
              toString productID ++ ": " ++ m),
            productID := productID }
        | none =>
          match body with
          | .error m =>
            { product := zeroProduct 0 0, nutritionalData := [],
              errMsg := some ("failed to parse JSON for product " ++
                toString productID ++ ": " ++ m),
              productID := productID }
          | .ok responseJSON =>
            { product := parseProductFromResponse responseJSON productID now
              nutritionalData := parseNutritionalDataFromResponse responseJSON productID now
              errMsg := none
              productID := productID }

/-- Embedding of the ProgressStats struct: the int64 atomic counters are
modeled as Nat (they are increment-only and bounded by the list length). -/
structure ProgressStats where
  totalProducts : Nat
  processedCount : Nat
  successCount : Nat
  notFoundCount : Nat
  errorCount : Nat
  startTime : Int
deriving DecidableEq, Repr

/-- State threaded by the result-collection loop of FetchAllProductsData:
the shared counters, the accumulated product and nutritional slices, and
the internal error list. -/
structure CollectState where
  stats : ProgressStats
  products : List Product
  nutritionalData : List ProductNutritionalData
  errorMsgs : List String

/-- Embedding of the body of the result-collection loop of
FetchAllProductsData (one received result): increment processed, then
classify by the error message — the exact not-found message increments
notFound, any other error increments the error counter and is appended to
the internal error list, and no error increments success and appends the
record and its nutritional entries. -/
def collectOne (st : CollectState) (r : ProductResult) : CollectState :=
  let stats := { st.stats with processedCount := st.stats.processedCount + 1 }
  match r.errMsg with
  | some m =>
    if m = notFoundMsg r.productID then
      { st with stats := { stats with notFoundCount := stats.notFoundCount + 1 } }
    else
      let stats2 := { stats with errorCount := stats.errorCount + 1 }
      { st with stats := stats2, errorMsgs := st.errorMsgs ++ [m] }
  | none =>
    let stats2 := { stats with successCount := stats.successCount + 1 }
    { st with
        stats := stats2
        products := st.products ++ [r.product]
        nutritionalData := st.nutritionalData ++ r.nutritionalData }

/-- Return value of FetchAllProductsData: the collected slices, the
returned error, and the final state of the shared counters and of the
internal error list. -/
structure FetchRun where
  products : List Product
  nutritionalData : List ProductNutritionalData
  returnedError : Option String
  stats : ProgressStats
  errorMsgs : List String

/-- Embedding of the rate-limiter creation condition of
FetchAllProductsData (the ticker is created exactly when duration is
positive; the identifier list is not consulted). The duration is in
nanoseconds as a Go time.Duration. -/
def rateLimiterCreated (productIDs : List Int) (duration : Int) : Bool :=
  decide (0 < duration)

/-- Embedding of FetchAllProductsData of pkg/services/product_service.go.
The worker pool delivers exactly one result per identifier into the result
channel (each fetchSingleProductData call sends exactly once and the
channel is closed only after all workers finish), so the multiset of
collected results is that of the per-identifier fetches; rate pacing and
interleaving order affect timing only, not the collected data, and the
collection loop is order-insensitive on the counters. The function
returns nil as its error, exactly as the source does. This definition
models completed runs: for a positive duration the source also computes
the pacing delay modeled by delayBetweenRequests below and creates a
ticker that panics on a non-positive interval (newTickerPanics), so the
source only returns on the domain delimited by runCompletes. -/
def fetchAllProductsData (productIDs : List Int) (duration : Int)
    (net : Int → NetResult) (now : Int) : FetchRun :=
  let stats0 : ProgressStats :=
    { totalProducts := productIDs.length, processedCount := 0, successCount := 0,
      notFoundCount := 0, errorCount := 0, startTime := now }
  let results := productIDs.map (fun pid => fetchSingleProductData pid now (net pid))
  let final := results.foldl collectOne
    { stats := stats0, products := [], nutritionalData := [], errorMsgs := [] }
  { products := final.products
    nutritionalData := final.nutritionalData
    returnedError := none
    stats := final.stats
    errorMsgs := final.errorMsgs }

/-- Typed fetch outcome of the specification; derived from a result by the
classification implicit in the collection loop of FetchAllProductsData. -/
inductive FetchOutcome where
  | success
  | notFound
  | transportError (cause : String)
deriving DecidableEq, Repr

/-- Classification a result receives in the collection loop: no error is a
success, the exact not-found message is NotFound, anything else is a
transport error carrying the message. -/
def classifyResult (r : ProductResult) : FetchOutcome :=
  match r.errMsg with
  | none => .success
  | some m => if m = notFoundMsg r.productID then .notFound else .transportError m

/-- Observable database action of the batch writer: transaction begin, one
bulk insert statement covering the one-based record range lo..hi (the
range printed in the batch error and progress messages of the source),
transaction commit, and transaction rollback. -/
inductive DBEvent where
  | txBegin
  | exec (lo hi : Nat)
  | txCommit
  | txRollback
deriving DecidableEq, Repr

/-- Failure surfaced by the batch writer: transaction begin failure, bulk
insert failure carrying the one-based record range of the failing batch,
and commit failure. -/
inductive SaveError where
  | beginFailed
  | execFailed (lo hi : Nat)
  | commitFailed
deriving DecidableEq, Repr

/-- Environment oracle for the database: whether Begin succeeds, whether
the bulk insert for a given one-based record range succeeds, and whether
Commit succeeds. -/
structure DBOracle where
  beginOk : Bool
  execOk : Nat → Nat → Bool
  commitOk : Bool

/-- Oracle under which every database operation succeeds. -/
def allOkOracle : DBOracle :=
  { beginOk := true, execOk := fun _ _ => true, commitOk := true }

/-- The Go loop header shared by SaveProducts and SaveNutritionalData
(for i := 0; i < n; i += step), yielding the zero-based start and the
exclusive end of each batch. The fuel argument bounds the iteration count
and is instantiated with n, which suffices for any positive step. -/
def chunkLoop (n step : Nat) : Nat → Nat → List (Nat × Nat)
  | 0, _ => []
  | fuel + 1, i => if i < n then (i, min (i + step) n) :: chunkLoop n step fuel (i + step) else []

/-- The batch ranges a save call iterates over for n records. -/
def chunkList (n step : Nat) : List (Nat × Nat) :=
  chunkLoop n step n 0

/-- Sequential execution of the bulk insert statements of the batch loop:
each batch issues one statement for the one-based range; the first failing
statement stops the loop and is reported with its range, exactly as the
source returns from inside the loop. -/
def runChunks (execOk : Nat → Nat → Bool) : List (Nat × Nat) → List DBEvent × Option SaveError
  | [] => ([], none)
  | (i, e) :: rest =>
    if execOk (i + 1) e then
      let r := runChunks execOk rest
      (.exec (i + 1) e :: r.1, r.2)
    else
      ([.exec (i + 1) e], some (.execFailed (i + 1) e))

/-- Embedding of the shared shape of SaveProducts and SaveNutritionalData:
an empty collection returns nil before any database action; otherwise one
transaction is opened, the batch loop executes its statements inside that
single transaction, and the function commits at the end. Any failure
returns after the deferred rollback takes effect; the trace lists the
database actions in order and the second component is the returned error. -/
def bulkSave (o : DBOracle) (count step : Nat) : List DBEvent × Option SaveError :=
  if count = 0 then ([], none)
  else if o.beginOk = false then ([], some .beginFailed)
  else
    let r := runChunks o.execOk (chunkList count step)
    match r.2 with
    | some err => (.txBegin :: r.1 ++ [.txRollback], some err)
    | none =>
      if o.commitOk then (.txBegin :: r.1 ++ [.txCommit], none)
      else (.txBegin :: r.1 ++ [.txRollback], some .commitFailed)

/-- The parameter ceiling of both save functions. -/
def maxParamsPerBatch : Nat := 60000

/-- Records per batch in SaveProducts: 16 parameters per product. -/
def maxProductsPerBatch : Nat := maxParamsPerBatch / 16

/-- Records per batch in SaveNutritionalData: 4 parameters per entry. -/
def maxNutritionalPerBatch : Nat := maxParamsPerBatch / 4

/-- Embedding of SaveProducts of the database service: batches of at most
maxProductsPerBatch products inside one transaction. -/
def saveProducts (o : DBOracle) (products : List Product) : List DBEvent × Option SaveError :=
  bulkSave o products.length maxProductsPerBatch

/-- Embedding of SaveNutritionalData of the database service: batches of
at most maxNutritionalPerBatch entries inside one transaction. -/
def saveNutritionalData (o : DBOracle) (nutritionalData : List ProductNutritionalData) :
    List DBEvent × Option SaveError :=
  bulkSave o nutritionalData.length maxNutritionalPerBatch

/-- Ranges of the bulk insert statements appearing in a trace. -/
def execEvents (trace : List DBEvent) : List (Nat × Nat) :=
  trace.filterMap (fun ev => match ev with | .exec lo hi => some (lo, hi) | _ => none)

/-- Number of transactions opened in a trace. -/
def beginCount (trace : List DBEvent) : Nat :=
  trace.countP (fun ev => ev matches .txBegin)

/-- Number of transactions committed in a trace. -/
def commitCount (trace : List DBEvent) : Nat :=
  trace.countP (fun ev => ev matches .txCommit)

/-- Number of rows of a bulk insert statement over a one-based range. -/
def rowsOf (r : Nat × Nat) : Nat :=
  r.2 + 1 - r.1

/-- Transaction semantics observer: statements whose enclosing transaction
reaches a commit are durable; a rollback discards the statements of its
transaction. The first argument accumulates the statements of the open
transaction. -/
def committedExecsAux (pending : List (Nat × Nat)) : List DBEvent → List (Nat × Nat)
  | [] => []
  | .txBegin :: rest => committedExecsAux [] rest
  | .exec lo hi :: rest => committedExecsAux (pending ++ [(lo, hi)]) rest
  | .txCommit :: rest => pending ++ committedExecsAux [] rest
  | .txRollback :: rest => committedExecsAux [] rest

/-- Statements of a trace made durable by a commit. -/
def committedExecs (trace : List DBEvent) : List (Nat × Nat) :=
  committedExecsAux [] trace

/-- Transaction semantics observer dual to committedExecs: statements
discarded by the rollback of their transaction. -/
def rolledBackExecsAux (pending : List (Nat × Nat)) : List DBEvent → List (Nat × Nat)
  | [] => []
  | .txBegin :: rest => rolledBackExecsAux [] rest
  | .exec lo hi :: rest => rolledBackExecsAux (pending ++ [(lo, hi)]) rest
  | .txCommit :: rest => rolledBackExecsAux [] rest
  | .txRollback :: rest => pending ++ rolledBackExecsAux [] rest

/-- Statements of a trace discarded by a rollback. -/
def rolledBackExecs (trace : List DBEvent) : List (Nat × Nat) :=
  rolledBackExecsAux [] trace

/-- C5 counterexample: the rate-limiter ticker creation of
FetchAllProductsData depends only on the duration, never on the
identifier count: with an empty identifier list and a positive duration
(one minute, in nanoseconds) the code still creates the rate governor,
contradicting the claim that no governor is created for a zero-count run
with any duration. -/
theorem rateLimiter_created_even_for_empty_list :
    rateLimiterCreated [] 60000000000 = true :=
  rfl

/-- C5 (amended): for an identifier list of length zero and a
non-positive duration, no rate governor is created, no identifiers are
processed, and the pipeline completes without error. -/
theorem empty_list_nonpositive_duration_noop (duration : Int) (hd : duration ≤ 0) :
    rateLimiterCreated [] duration = false ∧
    ∀ (net : Int → NetResult) (now : Int),
      (fetchAllProductsData [] duration net now).stats.processedCount = 0 ∧
      (fetchAllProductsData [] duration net now).products = [] ∧
      (fetchAllProductsData [] duration net now).returnedError = none := by
  constructor
  · simp only [rateLimiterCreated, decide_eq_false_iff_not]
    omega
  · exact fun _ _ => ⟨rfl, rfl, rfl⟩

/-- Witness for the amended C5 at duration zero. -/
theorem empty_list_nonpositive_duration_noop_witness :
    rateLimiterCreated [] 0 = false ∧
    (fetchAllProductsData [] 0 (fun _ => .doRequestError "x") 0).stats.processedCount = 0 :=
  ⟨(empty_list_nonpositive_duration_noop 0 (by decide)).1,
   ((empty_list_nonpositive_duration_noop 0 (by decide)).2 (fun _ => .doRequestError "x") 0).1⟩

/-- C6: on an empty collection, both save functions perform no database
action at all (no transaction, no statement) and return nil. -/
theorem save_empty_noop :
    ∀ o : DBOracle,
      saveProducts o [] = ([], none) ∧ saveNutritionalData o [] = ([], none) :=
  fun _ => ⟨rfl, rfl⟩

/-- C7: NewProductService with a worker count at most 0 builds a service
identical to one built with the default of 200; with a positive worker
count, exactly that many workers are configured. -/
theorem newProductService_worker_default :
    (∀ w : Int, w ≤ 0 → newProductService w = newProductService 200) ∧
    (∀ w : Int, 0 < w →
      (newProductService w).maxWorkers = w ∧ (newProductService w).semaphoreCapacity = w) := by
  constructor
  · intro w hw
    unfold newProductService
    rw [if_pos hw, if_neg (by omega)]
  · intro w hw
    unfold newProductService
    rw [if_neg (by omega)]
    exact ⟨rfl, rfl⟩

/-- Witness for C7 at the concrete worker counts -5 and 7. -/
theorem newProductService_worker_default_witness :
    newProductService (-5) = newProductService 200 ∧ (newProductService 7).maxWorkers = 7 :=
  ⟨newProductService_worker_default.1 (-5) (by decide),
   (newProductService_worker_default.2 7 (by decide)).1⟩

/-- C4: a fetch receiving HTTP 404 carries exactly the not-found message,
is classified NotFound and never TransportError, increments the notFound
counter and not the error counter, and is not appended to the error list. -/
theorem fetch404_classified_notFound :
    ∀ (productID now : Int) (gzipFail readFail : Option String)
      (body : Except String (List (String × JValue))) (st : CollectState),
      (fetchSingleProductData productID now (.httpResp 404 gzipFail readFail body)).errMsg
          = some (notFoundMsg productID) ∧
      classifyResult (fetchSingleProductData productID now (.httpResp 404 gzipFail readFail body))
          = .notFound ∧
      (collectOne st
          (fetchSingleProductData productID now (.httpResp 404 gzipFail readFail body))).stats.notFoundCount
          = st.stats.notFoundCount + 1 ∧
      (collectOne st
          (fetchSingleProductData productID now (.httpResp 404 gzipFail readFail body))).stats.errorCount
          = st.stats.errorCount ∧
      (collectOne st
          (fetchSingleProductData productID now (.httpResp 404 gzipFail readFail body))).errorMsgs
          = st.errorMsgs := by
  intro productID now gzipFail readFail body st
  have hres : fetchSingleProductData productID now (.httpResp 404 gzipFail readFail body) =
      { product := zeroProduct 0 0, nutritionalData := [],
        errMsg := some (notFoundMsg productID), productID := productID } := by
    simp [fetchSingleProductData]
  rw [hres]
  refine ⟨rfl, ?_, ?_, ?_, ?_⟩ <;> simp [classifyResult, collectOne]

/-- One collection step increments processed by exactly one, increments
exactly one of the three outcome counters, and leaves the total alone. -/
theorem collectOne_stats (st : CollectState) (r : ProductResult) :
    (collectOne st r).stats.processedCount = st.stats.processedCount + 1 ∧
    (collectOne st r).stats.successCount + (collectOne st r).stats.notFoundCount +
        (collectOne st r).stats.errorCount =
      st.stats.successCount + st.stats.notFoundCount + st.stats.errorCount + 1 ∧
    (collectOne st r).stats.totalProducts = st.stats.totalProducts := by
  unfold collectOne
  cases hm : r.errMsg with
  | none => simp; omega
  | some m =>
    by_cases h : m = notFoundMsg r.productID <;> simp [h] <;> omega

/-- Folding the collection step over a result list adds the list length to
processed and to the sum of the three outcome counters, and preserves the
total. -/
theorem foldl_collect_stats (rs : List ProductResult) :
    ∀ st : CollectState,
      ((rs.foldl collectOne st).stats.processedCount = st.stats.processedCount + rs.length) ∧
      ((rs.foldl collectOne st).stats.successCount + (rs.foldl collectOne st).stats.notFoundCount +
          (rs.foldl collectOne st).stats.errorCount =
        st.stats.successCount + st.stats.notFoundCount + st.stats.errorCount + rs.length) ∧
      ((rs.foldl collectOne st).stats.totalProducts = st.stats.totalProducts) := by
  induction rs with
  | nil => intro st; simp
  | cons r rest ih =>
    intro st
    simp only [List.foldl_cons, List.length_cons]
    obtain ⟨h1, h2, h3⟩ := ih (collectOne st r)
    obtain ⟨g1, g2, g3⟩ := collectOne_stats st r
    exact ⟨by omega, by omega, by omega⟩

/-- The counters of a run are those of the collection fold over the
per-identifier results. -/
theorem fetchAllProductsData_stats (productIDs : List Int) (duration : Int)
    (net : Int → NetResult) (now : Int) :
    (fetchAllProductsData productIDs duration net now).stats =
      (List.foldl collectOne ⟨⟨productIDs.length, 0, 0, 0, 0, now⟩, [], [], []⟩
        (productIDs.map fun pid => fetchSingleProductData pid now (net pid))).stats := rfl

/-- C1: for a non-empty identifier list, at completion the processed
counter equals the total (which is the identifier count), processed equals
the sum of the three outcome counters, and each collected result
increments processed exactly once and exactly one of the three outcome
counters. -/
theorem fetchAllProducts_counters (productIDs : List Int) (duration : Int)
    (net : Int → NetResult) (now : Int) (hne : productIDs ≠ []) :
    ((fetchAllProductsData productIDs duration net now).stats.processedCount =
        (fetchAllProductsData productIDs duration net now).stats.totalProducts) ∧
    ((fetchAllProductsData productIDs duration net now).stats.totalProducts =
        productIDs.length) ∧
    ((fetchAllProductsData productIDs duration net now).stats.processedCount =
        (fetchAllProductsData productIDs duration net now).stats.successCount +
        (fetchAllProductsData productIDs duration net now).stats.notFoundCount +
        (fetchAllProductsData productIDs duration net now).stats.errorCount) ∧
    (∀ (st : CollectState) (r : ProductResult),
        (collectOne st r).stats.processedCount = st.stats.processedCount + 1 ∧
        (collectOne st r).stats.successCount + (collectOne st r).stats.notFoundCount +
            (collectOne st r).stats.errorCount =
          st.stats.successCount + st.stats.notFoundCount + st.stats.errorCount + 1) := by
  obtain ⟨h1, h2, h3⟩ := foldl_collect_stats
    (productIDs.map fun pid => fetchSingleProductData pid now (net pid))
    ⟨⟨productIDs.length, 0, 0, 0, 0, now⟩, [], [], []⟩
  simp only [List.length_map] at h1 h2 h3
  refine ⟨?_, ?_, ?_, fun st r => ⟨(collectOne_stats st r).1, (collectOne_stats st r).2.1⟩⟩ <;>
    rw [fetchAllProductsData_stats productIDs duration net now] <;> omega

/-- Witness for C1 at the identifier list 10, 11, 12. -/
theorem fetchAllProducts_counters_witness :
    ([10, 11, 12] : List Int) ≠ [] ∧
    ((fetchAllProductsData [10, 11, 12] 0 (fun _ => .doRequestError "x") 0).stats.processedCount =
      (fetchAllProductsData [10, 11, 12] 0 (fun _ => .doRequestError "x") 0).stats.totalProducts) :=
  ⟨by decide, (fetchAllProducts_counters [10, 11, 12] 0 (fun _ => .doRequestError "x") 0
    (by decide)).1⟩

/-- Ceiling-division step identity used for the batch count. -/
theorem ceil_div_step (step a : Nat) (hstep : 0 < step) (ha : 0 < a) :
    (a + step - 1) / step = (a - step + step - 1) / step + 1 := by
  rcases Nat.le_total a step with hle | hge
  · have h1 : a - step = 0 := by omega
    have h2 : a + step - 1 = (a - 1) + step := by omega
    rw [h1, h2, Nat.add_div_right _ hstep, Nat.div_eq_of_lt (by omega)]
    have h3 : 0 + step - 1 = step - 1 := by omega
    rw [h3, Nat.div_eq_of_lt (by omega)]
  · have h2 : a + step - 1 = (a - step + step - 1) + step := by omega
    rw [h2, Nat.add_div_right _ hstep]

/-- The batch loop iterates the ceiling of the remaining count divided by
the step, given enough fuel. -/
theorem chunkLoop_length (n step : Nat) (hstep : 0 < step) :
    ∀ (fuel i : Nat), n ≤ i + fuel →
      (chunkLoop n step fuel i).length = (n - i + step - 1) / step := by
  intro fuel
  induction fuel with
  | zero =>
    intro i hi
    have h0 : n - i = 0 := by omega
    simp [chunkLoop, h0, Nat.div_eq_of_lt (show step - 1 < step by omega)]
  | succ fuel ih =>
    intro i hi
    rw [chunkLoop]
    by_cases hin : i < n
    · rw [if_pos hin]
      simp only [List.length_cons]
      rw [ih (i + step) (by omega)]
      have heq : n - (i + step) = n - i - step := by omega
      rw [heq]
      exact (ceil_div_step step (n - i) hstep (by omega)).symm
    · rw [if_neg hin]
      have h0 : n - i = 0 := by omega
      simp [h0, Nat.div_eq_of_lt (show step - 1 < step by omega)]

/-- The batch loop issues exactly the ceiling of n divided by the step. -/
theorem chunkList_length (n step : Nat) (hstep : 0 < step) :
    (chunkList n step).length = (n + step - 1) / step := by
  have h := chunkLoop_length n step hstep n 0 (by omega)
  simpa using h

/-- Every range the batch loop yields ends at the minimum of start plus
step and n, and starts below n. -/
theorem chunkLoop_mem (n step : Nat) :
    ∀ (fuel i : Nat) (p : Nat × Nat), p ∈ chunkLoop n step fuel i →
      p.2 = min (p.1 + step) n ∧ p.1 < n := by
  intro fuel
  induction fuel with
  | zero => intro i p hp; simp [chunkLoop] at hp
  | succ fuel ih =>
    intro i p hp
    rw [chunkLoop] at hp
    split at hp
    · rcases List.mem_cons.mp hp with h | h
      · subst h; exact ⟨rfl, by assumption⟩
      · exact ih _ p h
    · simp at hp

/-- When every statement succeeds, the batch loop executes one statement
per range and reports no error. -/
theorem runChunks_all_ok (execOk : Nat → Nat → Bool)
    (rs : List (Nat × Nat)) (hall : ∀ r ∈ rs, execOk (r.1 + 1) r.2 = true) :
    runChunks execOk rs = (rs.map (fun r => DBEvent.exec (r.1 + 1) r.2), none) := by
  induction rs with
  | nil => rfl
  | cons r rest ih =>
    obtain ⟨i, e⟩ := r
    have hie := hall (i, e) (by simp)
    simp only at hie
    rw [runChunks, ih (fun r hr => hall r (by simp [hr]))]
    simp [hie]

/-- The exec ranges of a trace made of exec events only. -/
theorem execEvents_of_execList (rs : List (Nat × Nat)) :
    execEvents (rs.map (fun r => DBEvent.exec (r.1 + 1) r.2)) =
      rs.map (fun r => (r.1 + 1, r.2)) := by
  induction rs with
  | nil => rfl
  | cons r rest ih =>
    simp only [List.map_cons, execEvents, List.filterMap_cons] at *
    rw [ih]

/-- C3 counterexample: on 9000 records with every statement succeeding,
SaveProducts opens exactly one transaction and commits exactly once — not
the three transactions the claim asserts. -/
theorem saveProducts_9000_single_transaction :
    beginCount (saveProducts allOkOracle (List.replicate 9000 (zeroProduct 0 0))).1 = 1 ∧
    commitCount (saveProducts allOkOracle (List.replicate 9000 (zeroProduct 0 0))).1 = 1 ∧
    ¬ (beginCount (saveProducts allOkOracle (List.replicate 9000 (zeroProduct 0 0))).1 = 3) := by
  refine ⟨?_, ?_, ?_⟩ <;> (rw [saveProducts, List.length_replicate]; decide)

/-- C3 (amended): for every non-zero record count and every positive
batch bound (hence every parameters-per-record value k, with bound equal
to floor of the 60000 ceiling divided by k), the Batch Writer issues
exactly the ceiling of the count divided by the bound as bulk insert
statements, each covering at most the bound in rows, all inside one
single committed transaction; this holds in particular for SaveProducts
(k 16, bound 3750) and SaveNutritionalData (k 4, bound 15000) on every
non-empty collection, and at 9000 products the three statements cover
3750, 3750 and 1500 rows. -/
theorem batchWriter_chunking :
    (∀ count step : Nat, count ≠ 0 → 0 < step →
      ((execEvents (bulkSave allOkOracle count step).1).length = (count + step - 1) / step) ∧
      (∀ r ∈ execEvents (bulkSave allOkOracle count step).1, rowsOf r ≤ step) ∧
      beginCount (bulkSave allOkOracle count step).1 = 1 ∧
      commitCount (bulkSave allOkOracle count step).1 = 1 ∧
      (bulkSave allOkOracle count step).2 = none) ∧
    (∀ products : List Product, products ≠ [] →
      ((execEvents (saveProducts allOkOracle products).1).length =
          (products.length + maxProductsPerBatch - 1) / maxProductsPerBatch) ∧
      (∀ r ∈ execEvents (saveProducts allOkOracle products).1, rowsOf r ≤ maxProductsPerBatch) ∧
      beginCount (saveProducts allOkOracle products).1 = 1 ∧
      commitCount (saveProducts allOkOracle products).1 = 1 ∧
      (saveProducts allOkOracle products).2 = none) ∧
    (∀ nutritionalData : List ProductNutritionalData, nutritionalData ≠ [] →
      ((execEvents (saveNutritionalData allOkOracle nutritionalData).1).length =
          (nutritionalData.length + maxNutritionalPerBatch - 1) / maxNutritionalPerBatch) ∧
      (∀ r ∈ execEvents (saveNutritionalData allOkOracle nutritionalData).1,
          rowsOf r ≤ maxNutritionalPerBatch) ∧
      beginCount (saveNutritionalData allOkOracle nutritionalData).1 = 1 ∧
      commitCount (saveNutritionalData allOkOracle nutritionalData).1 = 1 ∧
      (saveNutritionalData allOkOracle nutritionalData).2 = none) ∧
    ((execEvents (saveProducts allOkOracle (List.replicate 9000 (zeroProduct 0 0))).1).map rowsOf =
        [3750, 3750, 1500]) := by
  have hgen : ∀ count step : Nat, count ≠ 0 → 0 < step →
      ((execEvents (bulkSave allOkOracle count step).1).length = (count + step - 1) / step) ∧
      (∀ r ∈ execEvents (bulkSave allOkOracle count step).1, rowsOf r ≤ step) ∧
      beginCount (bulkSave allOkOracle count step).1 = 1 ∧
      commitCount (bulkSave allOkOracle count step).1 = 1 ∧
      (bulkSave allOkOracle count step).2 = none := by
    intro count step hn hstep
    have hrun := runChunks_all_ok allOkOracle.execOk (chunkList count step)
      (fun r _ => rfl)
    have htrace : bulkSave allOkOracle count step =
        (DBEvent.txBegin ::
          (chunkList count step).map (fun r => DBEvent.exec (r.1 + 1) r.2)
          ++ [DBEvent.txCommit], none) := by
      unfold bulkSave
      rw [if_neg hn]
      rw [hrun]
      rfl
    have hexec : ∀ rs : List (Nat × Nat),
        execEvents (DBEvent.txBegin :: rs.map (fun r => DBEvent.exec (r.1 + 1) r.2)
            ++ [DBEvent.txCommit]) =
          rs.map (fun r => (r.1 + 1, r.2)) := by
      intro rs
      have h1 := execEvents_of_execList rs
      simp only [execEvents, List.filterMap_cons, List.filterMap_append] at h1 ⊢
      simp [h1]
    rw [htrace]
    refine ⟨?_, ?_, ?_, ?_, rfl⟩
    · rw [hexec]
      simp [chunkList_length count step hstep]
    · rw [hexec]
      intro r hr
      obtain ⟨⟨i, e⟩, hmem, rfl⟩ := List.mem_map.mp hr
      obtain ⟨h2, h1⟩ := chunkLoop_mem count step count 0 (i, e) hmem
      simp only at h2 h1
      rw [rowsOf, h2]
      rcases Nat.le_total (i + step) count with hc | hc
      · rw [Nat.min_eq_left hc]; omega
      · rw [Nat.min_eq_right hc]; omega
    · simp [beginCount, List.countP_cons, List.countP_append, List.countP_map]
    · simp [commitCount, List.countP_cons, List.countP_append, List.countP_map]
  refine ⟨hgen, ?_, ?_, ?_⟩
  · intro products hne
    exact hgen products.length maxProductsPerBatch
      (fun h => hne (List.eq_nil_of_length_eq_zero h)) (by decide)
  · intro nutritionalData hne
    exact hgen nutritionalData.length maxNutritionalPerBatch
      (fun h => hne (List.eq_nil_of_length_eq_zero h)) (by decide)
  · rw [saveProducts, List.length_replicate]
    decide

/-- Witness for C3: a bulk save of 7 records in batches of 3, a singleton
product list, and a singleton nutritional list. -/
theorem batchWriter_chunking_witness :
    ((7 : Nat) ≠ 0 ∧ (0 : Nat) < 3 ∧
      (execEvents (bulkSave allOkOracle 7 3).1).length = (7 + 3 - 1) / 3) ∧
    (([zeroProduct 0 0] : List Product) ≠ [] ∧
      beginCount (saveProducts allOkOracle [zeroProduct 0 0]).1 = 1) ∧
    (([⟨none, 1, "a", "b", 0⟩] : List ProductNutritionalData) ≠ [] ∧
      commitCount (saveNutritionalData allOkOracle [⟨none, 1, "a", "b", 0⟩]).1 = 1) :=
  ⟨⟨by decide, by decide, (batchWriter_chunking.1 7 3 (by decide) (by decide)).1⟩,
   ⟨by simp, (batchWriter_chunking.2.1 [zeroProduct 0 0] (by simp)).2.2.1⟩,
   ⟨by simp, (batchWriter_chunking.2.2.1 [⟨none, 1, "a", "b", 0⟩] (by simp)).2.2.2.1⟩⟩

/-- When the statements before a failing batch succeed, the batch loop
executes exactly the prior statements and the failing one, then stops with
the error carrying the failing range. -/
theorem runChunks_fail_at (execOk : Nat → Nat → Bool) (rs₁ : List (Nat × Nat))
    (i e : Nat) (rs₂ : List (Nat × Nat))
    (hok : ∀ r ∈ rs₁, execOk (r.1 + 1) r.2 = true)
    (hfail : execOk (i + 1) e = false) :
    runChunks execOk (rs₁ ++ (i, e) :: rs₂) =
      (rs₁.map (fun r => DBEvent.exec (r.1 + 1) r.2) ++ [DBEvent.exec (i + 1) e],
        some (.execFailed (i + 1) e)) := by
  induction rs₁ with
  | nil => simp [runChunks, hfail]
  | cons r rest ih =>
    obtain ⟨a, b⟩ := r
    have hab := hok (a, b) (by simp)
    simp only at hab
    rw [List.cons_append, runChunks, ih (fun r hr => hok r (by simp [hr]))]
    simp [hab]

/-- A trace of exec events followed by a rollback commits nothing,
whatever statements are pending when it starts. -/
theorem committedExecsAux_execs_rollback (l : List DBEvent)
    (hall : ∀ ev ∈ l, ∃ lo hi, ev = DBEvent.exec lo hi) :
    ∀ pending : List (Nat × Nat),
      committedExecsAux pending (l ++ [DBEvent.txRollback]) = [] := by
  induction l with
  | nil => intro pending; rfl
  | cons ev rest ih =>
    intro pending
    obtain ⟨lo, hi, rfl⟩ := hall ev (by simp)
    rw [List.cons_append, committedExecsAux]
    exact ih (fun e he => hall e (by simp [he])) _

/-- C2 (amended): a failure in any batch of a save call aborts the single
transaction that covers the whole call — the bulk statements already
executed for earlier batches in the call are rolled back with it, nothing
is committed — and the error is surfaced immediately with the one-based
range of the failing batch; the statements attempted are exactly those of
the earlier batches plus the failing one, so no later batch is attempted
and there is no retry. -/
theorem bulkSave_chunkFailure_behavior (o : DBOracle) (n step : Nat)
    (rs₁ rs₂ : List (Nat × Nat)) (i e : Nat)
    (hn : ¬ (n = 0)) (hb : o.beginOk = true)
    (hsplit : chunkList n step = rs₁ ++ (i, e) :: rs₂)
    (hok : ∀ r ∈ rs₁, o.execOk (r.1 + 1) r.2 = true)
    (hfail : o.execOk (i + 1) e = false) :
    (bulkSave o n step =
      (DBEvent.txBegin ::
          (rs₁.map (fun r => DBEvent.exec (r.1 + 1) r.2) ++ [DBEvent.exec (i + 1) e])
          ++ [DBEvent.txRollback],
        some (SaveError.execFailed (i + 1) e))) ∧
    committedExecs (bulkSave o n step).1 = [] ∧
    execEvents (bulkSave o n step).1 =
      rs₁.map (fun r => (r.1 + 1, r.2)) ++ [(i + 1, e)] := by
  have hrun := runChunks_fail_at o.execOk rs₁ i e rs₂ hok hfail
  have htrace : bulkSave o n step =
      (DBEvent.txBegin ::
          (rs₁.map (fun r => DBEvent.exec (r.1 + 1) r.2) ++ [DBEvent.exec (i + 1) e])
          ++ [DBEvent.txRollback],
        some (SaveError.execFailed (i + 1) e)) := by
    unfold bulkSave
    rw [if_neg hn, hb, hsplit, hrun]
    simp
  refine ⟨htrace, ?_, ?_⟩
  · rw [htrace, committedExecs]
    show committedExecsAux []
        ((rs₁.map (fun r => DBEvent.exec (r.1 + 1) r.2) ++ [DBEvent.exec (i + 1) e])
          ++ [DBEvent.txRollback]) = []
    exact committedExecsAux_execs_rollback _
      (by
        intro ev hev
        rcases List.mem_append.mp hev with h | h
        · obtain ⟨r, _, rfl⟩ := List.mem_map.mp h
          exact ⟨r.1 + 1, r.2, rfl⟩
        · simp only [List.mem_singleton] at h
          exact ⟨i + 1, e, h⟩) []
  · rw [htrace]
    have h1 := execEvents_of_execList rs₁
    simp only [execEvents, List.filterMap_cons, List.filterMap_append] at h1 ⊢
    simp [h1]

/-- Oracle under which only the first batch statement succeeds. -/
def failSecondOracle : DBOracle :=
  { beginOk := true, execOk := fun lo _ => lo == 1, commitOk := true }

/-- C2 counterexample: saving 7500 products when the second batch fails,
the first batch statement was executed before the failure, yet nothing of
the call is committed — the rollback of the single transaction discards
the first batch as well, and the surfaced error carries the failing range
3751-7500. -/
theorem saveProducts_failure_rolls_back_prior_chunk :
    ((1, 3750) ∈
        execEvents (saveProducts failSecondOracle (List.replicate 7500 (zeroProduct 0 0))).1) ∧
    committedExecs (saveProducts failSecondOracle (List.replicate 7500 (zeroProduct 0 0))).1
        = [] ∧
    ((1, 3750) ∈
        rolledBackExecs (saveProducts failSecondOracle (List.replicate 7500 (zeroProduct 0 0))).1) ∧
    (saveProducts failSecondOracle (List.replicate 7500 (zeroProduct 0 0))).2 =
      some (SaveError.execFailed 3751 7500) := by
  refine ⟨?_, ?_, ?_, ?_⟩ <;> (rw [saveProducts, List.length_replicate]; decide)

/-- Witness for C2 at the concrete scenario of 7500 records in ranges of
3750 with the second batch statement failing. -/
theorem bulkSave_chunkFailure_behavior_witness :
    bulkSave failSecondOracle 7500 3750 =
      (DBEvent.txBegin ::
          (([((0 : Nat), (3750 : Nat))].map (fun r => DBEvent.exec (r.1 + 1) r.2)
            ++ [DBEvent.exec (3750 + 1) 7500])
          ++ [DBEvent.txRollback]),
        some (SaveError.execFailed (3750 + 1) 7500)) :=
  (bulkSave_chunkFailure_behavior failSecondOracle 7500 3750 [(0, 3750)] [] 3750 7500
    (by decide) rfl (by decide) (by decide) (by decide)).1

/-- A 200-status response body in which every optional field is present,
including line-break markup to strip, both price objects, a category path,
and a bopData block with a detailed description and a cooking-guidelines
field. -/
def fullProductJSON : List (String × JValue) :=
  [("product", .obj
      [("type", .str "beverage"),
       ("name", .str "Cola<br />Zero"),
       ("description", .str "plain desc"),
       ("brand", .str "Bon"),
       ("packSizeDescription", .str "1 L"),
       ("available", .jbool true),
       ("alcohol", .jbool true),
       ("price", .obj [("amount", .num 3.5), ("currency", .str "EUR")]),
       ("unitPrice", .obj
         [("price", .obj [("amount", .num 2.1), ("currency", .str "EUR")]),
          ("unit", .str "l")]),
       ("categoryPath", .arr [.str "drinks", .str "cola"])]),
   ("bopData", .obj
      [("detailedDescription", .str "full<br />desc"),
       ("fields", .arr
         [.obj [("title", .str "cookingGuidelines"), ("content", .str "serve<br />cold")],
          .obj [("title", .str "nutritionalData"), ("content", .str "table")]])])]

/-- The fully populated entity the full response decodes to: every field
carries its value, the break markup is stripped, and the bopData detailed
description overrides the plain description. -/
def fullProductParsed : Product :=
  { productID := 5
    productType := "beverage"
    productName := "ColaZero"
    productDescription := "fulldesc"
    productBrand := "Bon"
    productPackSizeDescription := "1 L"
    productPriceAmount := 3.5
    productCurrency := "EUR"
    productUnitPriceAmount := 2.1
    productUnitPriceCurrency := "EUR"
    productUnitPriceUnit := "l"
    productAvailable := true
    productAlcohol := true
    productCookingGuidelines := "servecold"
    productCategories := ["drinks", "cola"]
    createdAt := 77 }

/-- A response body in which several fields carry the wrong JSON type and
others are missing: name is a number, available is a string, the price
amount is a boolean and the currency is missing, and the category path
mixes a string with a number. -/
def wrongTypedProductJSON : List (String × JValue) :=
  [("product", .obj
      [("type", .str "food"),
       ("name", .num 7),
       ("available", .str "yes"),
       ("price", .obj [("amount", .jbool true)]),
       ("categoryPath", .arr [.str "ok", .num 1])])]

/-- The entity the wrong-typed response decodes to: the well-typed fields
are populated, every wrong-typed or missing field keeps its zero value,
and the non-string category entry is skipped. -/
def wrongTypedParsed : Product :=
  { zeroProduct 5 77 with productType := "food", productCategories := ["ok"] }

/-- C8: a record with every optional field present decodes to the fully
populated entity; a record missing all optional fields (or with an empty
product object) decodes to the zero-valued entity without failing; a
wrong-typed field is left at its zero value without failing the rest of
the record; and a price amount is accepted both as a native number and as
a numeric string, decoding to the same value. -/
theorem parseProduct_optional_fields :
    (parseProductFromResponse fullProductJSON 5 77 = fullProductParsed) ∧
    (∀ productID now : Int,
        parseProductFromResponse [] productID now = zeroProduct productID now ∧
        parseProductFromResponse [("product", .obj [])] productID now =
          zeroProduct productID now) ∧
    (parseProductFromResponse wrongTypedProductJSON 5 77 = wrongTypedParsed) ∧
    (∃ q : ℚ, parseFloatQ "3.5" = some q ∧
        (parseProductFromResponse [("product", .obj [("price", .obj [("amount", .str "3.5")])])]
            5 0).productPriceAmount = q ∧
        (parseProductFromResponse [("product", .obj [("price", .obj [("amount", .num q)])])]
            5 0).productPriceAmount = q) :=
  ⟨rfl, fun _ _ => ⟨rfl, rfl⟩, rfl, ⟨_, rfl, rfl, rfl⟩⟩

/-- A row accepted by the per-row step yields an entry carrying the given
product id and clock instant with non-empty value and quantity strings. -/
theorem nutritionalRowEntry_spec (productID now : Int) (row : String)
    (e : ProductNutritionalData) (h : nutritionalRowEntry productID now row = some e) :
    e.productID = productID ∧ e.productNutritionalValue ≠ "" ∧
    e.productNutritionalQuantity ≠ "" ∧ e.createdAt = now ∧ e.id = none := by
  unfold nutritionalRowEntry at h
  split at h
  · exact Option.noConfusion h
  · split at h
    · simp only [] at h
      split at h
      · rename_i hcond
        cases h
        exact ⟨rfl, hcond.1, hcond.2, rfl, rfl⟩
      · exact Option.noConfusion h
    · exact Option.noConfusion h

/-- C10: every nutritional entry produced from a table, directly or
through the response-level extraction, carries the product identifier it
was parsed for and has a non-empty value name and a non-empty quantity
string; rows rejected by the header, cell-count and emptiness checks
yield no entry. -/
theorem nutritional_entries_invariant :
    (∀ (html : String) (productID now : Int) (e : ProductNutritionalData),
        e ∈ parseNutritionalDataTable html productID now →
          e.productID = productID ∧ e.productNutritionalValue ≠ "" ∧
          e.productNutritionalQuantity ≠ "") ∧
    (∀ (responseJSON : List (String × JValue)) (productID now : Int)
        (e : ProductNutritionalData),
        e ∈ parseNutritionalDataFromResponse responseJSON productID now →
          e.productID = productID ∧ e.productNutritionalValue ≠ "" ∧
          e.productNutritionalQuantity ≠ "") := by
  have htab : ∀ (html : String) (productID now : Int) (e : ProductNutritionalData),
      e ∈ parseNutritionalDataTable html productID now →
        e.productID = productID ∧ e.productNutritionalValue ≠ "" ∧
        e.productNutritionalQuantity ≠ "" := by
    intro html productID now e he
    rw [parseNutritionalDataTable, List.mem_filterMap] at he
    obtain ⟨row, _, hrow⟩ := he
    obtain ⟨h1, h2, h3, _, _⟩ := nutritionalRowEntry_spec productID now row e hrow
    exact ⟨h1, h2, h3⟩
  refine ⟨htab, ?_⟩
  intro responseJSON productID now e he
  unfold parseNutritionalDataFromResponse at he
  repeat' split at he
  all_goals first
    | exact absurd he (List.not_mem_nil e)
    | exact htab _ productID now e he

/-- Witness for C10: a concrete table row produces exactly the entry with
the given id and non-empty strings. -/
theorem nutritional_entries_invariant_witness :
    (⟨none, 7, "Energia", "100 kJ", 3⟩ : ProductNutritionalData).productID = 7 ∧
    (⟨none, 7, "Energia", "100 kJ", 3⟩ : ProductNutritionalData).productNutritionalValue ≠ "" ∧
    (⟨none, 7, "Energia", "100 kJ", 3⟩ : ProductNutritionalData).productNutritionalQuantity ≠ "" :=
  nutritional_entries_invariant.1 "<tr><td>Energia</td><td>100 kJ</td>" 7 3
    ⟨none, 7, "Energia", "100 kJ", 3⟩ (by decide)

end Bonpreu
